import Mathlib

/-!
Verification of the solar-economics calculator (`src/calculator.py`).

The Python module has two functions:

* `get_pvout_annual` — fetches the annual PV yield from the PVGIS service
  and extracts `outputs.totals.fixed.E_y` from the JSON response;
* `calculate_solar_economics` — pure financial/sizing arithmetic.

Python floats are modelled as exact rationals (`ℚ`); Python's `round`
(banker's rounding to `n` decimal digits) is modelled by `pyRound`;
the heterogeneous success/error dictionaries are modelled by explicit
sum types; the network boundary of `get_pvout_annual` is modelled by an
`HttpOutcome` input describing what the single GET request produced.
-/

/-- `DEFAULT_TARIFF = 1699.53` from calculator.py. -/
def DEFAULT_TARIFF : ℚ := 169953 / 100

/-- `COST_PER_KWP = 12390000` from calculator.py. -/
def COST_PER_KWP : ℚ := 12390000

/-- `LOSS_FACTOR = 0.85` from calculator.py. -/
def LOSS_FACTOR : ℚ := 85 / 100

/-- `PANEL_WATT_PEAK = 650` from calculator.py. -/
def PANEL_WATT_PEAK : ℚ := 650

/-- `PANEL_AREA_SQM = 2.71` from calculator.py. -/
def PANEL_AREA_SQM : ℚ := 271 / 100

/-- Round-half-to-even to the nearest integer, as Python's builtin `round`
does on the (exact rational) value. -/
def roundHalfEven (q : ℚ) : ℤ :=
  if q - ⌊q⌋ < 1/2 then ⌊q⌋
  else if 1/2 < q - ⌊q⌋ then ⌊q⌋ + 1
  else if ⌊q⌋ % 2 = 0 then ⌊q⌋ else ⌊q⌋ + 1

/-- Python's `round(x, n)` for `n ≥ 0` decimal digits, on exact rationals. -/
def pyRound (x : ℚ) (n : ℕ) : ℚ :=
  (roundHalfEven (x * 10 ^ n) : ℚ) / 10 ^ n

/-- A Python value as far as `calculate_solar_economics` observes it:
its truthiness (used by the `tarif_listrik and ...` test) and the result
of `float(...)` coercion (`none` when `float` raises). -/
structure PyValue where
  truthy : Bool
  toFloat : Option ℚ

/-- A numeric Python argument: falsy exactly when zero, coerces to itself. -/
def pyNum (q : ℚ) : PyValue := ⟨decide (q ≠ 0), some q⟩

/-- Python `None` (also the empty string): falsy, not float-coercible. -/
def pyNone : PyValue := ⟨false, none⟩

/-- The `BEP_Tahun` output field: a number, or the string sentinel `'Inf'`. -/
inductive BepField where
  | num (q : ℚ)
  | inf
deriving DecidableEq

/-- The twelve derived fields of a `"status": "success"` dictionary
returned by `calculate_solar_economics`, in source order. -/
structure EconSuccess where
  TDL_Used : ℚ
  PVOut_Annual : ℚ
  PVOUT_Bulanan_Efektif : ℚ
  Kebutuhan_kWh_Bulanan : ℚ
  Kapasitas_kWp : ℚ
  Produksi_kWh_Bulanan : ℚ
  Total_Investasi : ℚ
  Penghematan_Tahunan_Rp : ℚ
  BEP_Tahun : BepField
  Jumlah_Panel : ℤ
  Estimasi_Area_m2 : ℚ
  LOSS_FACTOR : ℚ
deriving DecidableEq

/-- Result of `calculate_solar_economics`: the success dictionary or an
`{"error": msg}` dictionary. -/
inductive EconResult where
  | success (r : EconSuccess)
  | error (msg : String)
deriving DecidableEq

/-- `tdl = float(tarif_listrik) if tarif_listrik and float(tarif_listrik) > 0
else DEFAULT_TARIFF`, on an already-coerced numeric tariff. -/
def effTdl (tarif : ℚ) : ℚ :=
  if 0 < tarif then tarif else DEFAULT_TARIFF

/-- The same `tdl` line on a raw Python value: `none` models `float(...)`
raising (caught by the surrounding `except`). A falsy tariff short-circuits
the `and`, so it is never coerced. -/
def resolveTdl (tarif : PyValue) : Option ℚ :=
  if tarif.truthy then
    match tarif.toFloat with
    | none => none
    | some v => some (if 0 < v then v else DEFAULT_TARIFF)
  else some DEFAULT_TARIFF

/-- `kebutuhan_energi_bulanan = float(tagihan_listrik) / tdl if float(tdl) != 0
else 0.0`. -/
def kebutuhan_energi_bulanan (tagihan tdl : ℚ) : ℚ :=
  if tdl ≠ 0 then tagihan / tdl else 0

/-- `target_produksi_bulanan = kebutuhan_energi_bulanan * (penghematan_persen / 100)`. -/
def target_produksi_bulanan (tagihan tdl sp : ℚ) : ℚ :=
  kebutuhan_energi_bulanan tagihan tdl * (sp / 100)

/-- `pvout_monthly_effective = (float(pvout_annual) / 12.0) * LOSS_FACTOR`. -/
def pvout_monthly_effective (pvout : ℚ) : ℚ :=
  pvout / 12 * LOSS_FACTOR

/-- `kapasitas_kwp = target_produksi_bulanan / pvout_monthly_effective`. -/
def kapasitas_kwp (pvout tagihan tdl sp : ℚ) : ℚ :=
  target_produksi_bulanan tagihan tdl sp / pvout_monthly_effective pvout

/-- `total_investasi = kapasitas_kwp * COST_PER_KWP`. -/
def total_investasi (pvout tagihan tdl sp : ℚ) : ℚ :=
  kapasitas_kwp pvout tagihan tdl sp * COST_PER_KWP

/-- `penghematan_tahunan_uang = target_produksi_bulanan * 12.0 * float(tdl)`. -/
def penghematan_tahunan_uang (tagihan tdl sp : ℚ) : ℚ :=
  target_produksi_bulanan tagihan tdl sp * 12 * tdl

/-- `jumlah_panel = int(math.ceil(kapasitas_kwp * 1000.0 / PANEL_WATT_PEAK))
if kapasitas_kwp > 0 else 0`. -/
def jumlah_panel (kap : ℚ) : ℤ :=
  if 0 < kap then ⌈kap * 1000 / PANEL_WATT_PEAK⌉ else 0

/-- Error message of the zero-effective-yield branch. -/
def zeroYieldMsg : String := "PVOut tahunan tidak valid (0) atau LOSS_FACTOR=0."

/-- The arithmetic body of `calculate_solar_economics` after all `float(...)`
coercions succeeded, building the success dictionary with each field rounded
exactly as in the source. -/
def calculateQ (pvout tagihan tdl sp : ℚ) : EconResult :=
  if pvout_monthly_effective pvout = 0 then
    .error zeroYieldMsg
  else
    .success
      { TDL_Used := pyRound tdl 2
        PVOut_Annual := pyRound pvout 1
        PVOUT_Bulanan_Efektif := pyRound (pvout_monthly_effective pvout) 4
        Kebutuhan_kWh_Bulanan := pyRound (kebutuhan_energi_bulanan tagihan tdl) 2
        Kapasitas_kWp := pyRound (kapasitas_kwp pvout tagihan tdl sp) 2
        Produksi_kWh_Bulanan := pyRound (target_produksi_bulanan tagihan tdl sp) 4
        Total_Investasi := pyRound (total_investasi pvout tagihan tdl sp) 0
        Penghematan_Tahunan_Rp := pyRound (penghematan_tahunan_uang tagihan tdl sp) 0
        BEP_Tahun :=
          if 0 < penghematan_tahunan_uang tagihan tdl sp then
            .num (pyRound (total_investasi pvout tagihan tdl sp /
                           penghematan_tahunan_uang tagihan tdl sp) 1)
          else .inf
        Jumlah_Panel := jumlah_panel (kapasitas_kwp pvout tagihan tdl sp)
        Estimasi_Area_m2 :=
          pyRound ((jumlah_panel (kapasitas_kwp pvout tagihan tdl sp) : ℚ) *
                   PANEL_AREA_SQM) 2
        LOSS_FACTOR := LOSS_FACTOR }

/-- Error message used for a `float(...)` coercion failure caught by the
function-wide `except Exception` (`"Kesalahan perhitungan finansial: ..."`). -/
def coercionErrMsg : String := "Kesalahan perhitungan finansial: float() failed"

/-- `calculate_solar_economics(pvout_annual, tagihan_listrik, tarif_listrik,
penghematan_persen)`: resolve the tariff, coerce the remaining arguments in
source order, then run the arithmetic body; a raising coercion is caught by
the surrounding `try`/`except` and becomes an error dictionary. -/
def calculate_solar_economics
    (pvout_annual tagihan_listrik tarif_listrik penghematan_persen : PyValue) :
    EconResult :=
  match resolveTdl tarif_listrik with
  | none => .error coercionErrMsg
  | some tdl =>
    match tagihan_listrik.toFloat with
    | none => .error coercionErrMsg
    | some tagihan =>
      match penghematan_persen.toFloat with
      | none => .error coercionErrMsg
      | some sp =>
        match pvout_annual.toFloat with
        | none => .error coercionErrMsg
        | some pvout => calculateQ pvout tagihan tdl sp

/-! ## Embedding of `get_pvout_annual` -/

/-- A parsed JSON value, as returned by `r.json()`. -/
inductive Json where
  | null
  | bool (b : Bool)
  | num (q : ℚ)
  | str (s : String)
  | arr (xs : List Json)
  | obj (fields : List (String × Json))

/-- Python subscripting `j[k]`: succeeds only on an object that has the key
(anything else raises, which the source's inner `except` turns into the
"missing E_y" error). -/
def Json.getKey : Json → String → Option Json
  | .obj fields, k => fields.lookup k
  | _, _ => none

/-- `data["outputs"]["totals"]["fixed"]["E_y"]` as an optional lookup. -/
def lookup_E_y (j : Json) : Option Json :=
  (((j.getKey "outputs").bind (fun x => x.getKey "totals")).bind
      (fun x => x.getKey "fixed")).bind
    (fun x => x.getKey "E_y")

/-- `float(...)` applied to an extracted JSON value. -/
def Json.toFloatVal : Json → Option ℚ
  | .num q => some q
  | .bool b => some (if b then 1 else 0)
  | _ => none

/-- `str(round(v, 1)).replace(".", ",")`: one decimal digit, comma separator. -/
def formatComma1 (q : ℚ) : String :=
  (if roundHalfEven (q * 10) < 0 then "-" else "") ++
    toString ((roundHalfEven (q * 10)).natAbs / 10) ++ "," ++
    toString ((roundHalfEven (q * 10)).natAbs % 10)

/-- What the single `requests.get` call produced: a raised
`requests.exceptions.RequestException` (timeout, DNS failure, connection
refused, ...) carrying its message, or a transport-complete response with an
HTTP status and a parsed JSON body. -/
inductive HttpOutcome where
  | exn (msg : String)
  | resp (status : ℕ) (body : Json)

/-- Result of `get_pvout_annual`: the success dictionary
`{"pvout_numeric": ..., "pvout_formatted": ...}` or `{"error": msg}`. -/
inductive PvoutResult where
  | ok (pvout_numeric : ℚ) (pvout_formatted : String)
  | error (msg : String)

/-- `get_pvout_annual` downstream of the GET request: `raise_for_status()`
raises an `HTTPError` (a `RequestException`) on any 4xx/5xx status, the
`E_y` extraction falls back to the "missing" error, and `float(pvout_value)`
failing is caught by the outer `except Exception`. -/
def get_pvout_annual (outcome : HttpOutcome) : PvoutResult :=
  match outcome with
  | .exn e => .error ("PVGIS request error: " ++ e)
  | .resp status body =>
    if 400 ≤ status then
      .error ("PVGIS request error: HTTP " ++ toString status)
    else
      match lookup_E_y body with
      | none => .error "PVGIS response missing E_y value."
      | some v =>
        match v.toFloatVal with
        | some q => .ok q (formatComma1 q)
        | none => .error "Unexpected error while fetching PVOUT: float() failed"

/-- `needle` occurs as a contiguous substring of `hay`. -/
def containsSub (needle hay : String) : Prop :=
  ∃ pre post, hay = pre ++ needle ++ post

/-! ## Rounding lemmas -/

theorem floor_le_roundHalfEven (q : ℚ) : ⌊q⌋ ≤ roundHalfEven q := by
  unfold roundHalfEven
  split_ifs <;> omega

theorem roundHalfEven_le_floor_add_one (q : ℚ) : roundHalfEven q ≤ ⌊q⌋ + 1 := by
  unfold roundHalfEven
  split_ifs <;> omega

theorem roundHalfEven_intCast (z : ℤ) : roundHalfEven (z : ℚ) = z := by
  unfold roundHalfEven
  rw [Int.floor_intCast]
  norm_num

theorem roundHalfEven_nonneg {q : ℚ} (h : 0 ≤ q) : 0 ≤ roundHalfEven q :=
  le_trans (Int.floor_nonneg.mpr h) (floor_le_roundHalfEven q)

theorem roundHalfEven_nonpos {q : ℚ} (h : q ≤ 0) : roundHalfEven q ≤ 0 := by
  by_cases hf : ⌊q⌋ ≤ -1
  · have := roundHalfEven_le_floor_add_one q
    omega
  · have h0 : ⌊q⌋ ≤ 0 := by
      have := Int.floor_le_floor (α := ℚ) h
      simpa using this
    have h0' : ⌊q⌋ = 0 := by omega
    have hq0 : (0 : ℚ) ≤ q := by
      have := Int.le_floor.mp (by omega : (0 : ℤ) ≤ ⌊q⌋)
      simpa using this
    have hq : q = 0 := le_antisymm h hq0
    subst hq
    simp [roundHalfEven]

theorem roundHalfEven_eq_of_lt {q : ℚ} {f : ℤ} (h1 : (f : ℚ) ≤ q)
    (h2 : q - f < 1 / 2) : roundHalfEven q = f := by
  have hf : ⌊q⌋ = f := Int.floor_eq_iff.mpr ⟨h1, by linarith⟩
  unfold roundHalfEven
  rw [hf, if_pos h2]

theorem roundHalfEven_eq_of_gt {q : ℚ} {f : ℤ} (h1 : q < f + 1)
    (h2 : 1 / 2 < q - f) : roundHalfEven q = f + 1 := by
  have hf : ⌊q⌋ = f := Int.floor_eq_iff.mpr ⟨by linarith, by linarith⟩
  unfold roundHalfEven
  rw [hf, if_neg (by linarith), if_pos h2]

theorem pyRound_nonneg {x : ℚ} (n : ℕ) (h : 0 ≤ x) : 0 ≤ pyRound x n := by
  unfold pyRound
  have h1 : (0 : ℤ) ≤ roundHalfEven (x * 10 ^ n) :=
    roundHalfEven_nonneg (by positivity)
  have h2 : (0 : ℚ) ≤ (roundHalfEven (x * 10 ^ n) : ℚ) := by exact_mod_cast h1
  positivity

theorem pyRound_nonpos {x : ℚ} (n : ℕ) (h : x ≤ 0) : pyRound x n ≤ 0 := by
  unfold pyRound
  have h1 : roundHalfEven (x * 10 ^ n) ≤ 0 :=
    roundHalfEven_nonpos (mul_nonpos_of_nonpos_of_nonneg h (by positivity))
  have h2 : (roundHalfEven (x * 10 ^ n) : ℚ) ≤ 0 := by exact_mod_cast h1
  exact div_nonpos_of_nonpos_of_nonneg h2 (by positivity)

theorem pyRound_eq_self {x : ℚ} {n : ℕ} (z : ℤ) (h : x * 10 ^ n = (z : ℚ)) :
    pyRound x n = x := by
  unfold pyRound
  rw [h, roundHalfEven_intCast, ← h, mul_div_assoc, div_self (by positivity),
    mul_one]

/-! ## Structural lemmas about `calculate_solar_economics` -/

theorem DEFAULT_TARIFF_pos : 0 < DEFAULT_TARIFF := by norm_num [DEFAULT_TARIFF]

theorem resolveTdl_num (c : ℚ) : resolveTdl (pyNum c) = some (effTdl c) := by
  unfold resolveTdl pyNum effTdl
  by_cases hc : c = 0
  · subst hc; norm_num
  · simp only [decide_eq_true_eq, hc, not_false_iff, if_true, decide_not]
    simp [hc]

theorem calculate_num (a b c d : ℚ) :
    calculate_solar_economics (pyNum a) (pyNum b) (pyNum c) (pyNum d) =
      calculateQ a b (effTdl c) d := by
  unfold calculate_solar_economics
  rw [resolveTdl_num]
  rfl

theorem calculateQ_success (pvout tagihan tdl sp : ℚ)
    (h : pvout_monthly_effective pvout ≠ 0) :
    calculateQ pvout tagihan tdl sp = .success
      { TDL_Used := pyRound tdl 2
        PVOut_Annual := pyRound pvout 1
        PVOUT_Bulanan_Efektif := pyRound (pvout_monthly_effective pvout) 4
        Kebutuhan_kWh_Bulanan := pyRound (kebutuhan_energi_bulanan tagihan tdl) 2
        Kapasitas_kWp := pyRound (kapasitas_kwp pvout tagihan tdl sp) 2
        Produksi_kWh_Bulanan := pyRound (target_produksi_bulanan tagihan tdl sp) 4
        Total_Investasi := pyRound (total_investasi pvout tagihan tdl sp) 0
        Penghematan_Tahunan_Rp := pyRound (penghematan_tahunan_uang tagihan tdl sp) 0
        BEP_Tahun :=
          if 0 < penghematan_tahunan_uang tagihan tdl sp then
            .num (pyRound (total_investasi pvout tagihan tdl sp /
                           penghematan_tahunan_uang tagihan tdl sp) 1)
          else .inf
        Jumlah_Panel := jumlah_panel (kapasitas_kwp pvout tagihan tdl sp)
        Estimasi_Area_m2 :=
          pyRound ((jumlah_panel (kapasitas_kwp pvout tagihan tdl sp) : ℚ) *
                   PANEL_AREA_SQM) 2
        LOSS_FACTOR := LOSS_FACTOR } := by
  unfold calculateQ
  rw [if_neg h]

theorem pvout_monthly_effective_eq (pv : ℚ) :
    pvout_monthly_effective pv = pv * (17 / 240) := by
  unfold pvout_monthly_effective LOSS_FACTOR
  ring

theorem pvout_monthly_effective_ne_zero {pv : ℚ} (h : pv ≠ 0) :
    pvout_monthly_effective pv ≠ 0 := by
  rw [pvout_monthly_effective_eq]
  exact mul_ne_zero h (by norm_num)

/-! ## String-containment helpers -/

theorem String.eq_of_data_eq {a b : String} (h : a.data = b.data) : a = b := by
  cases a; cases b; exact congrArg String.mk h

theorem containsSub_iff_listInfix (n h : String) :
    containsSub n h ↔ n.data <:+: h.data := by
  constructor
  · rintro ⟨p, q, rfl⟩
    exact ⟨p.data, q.data, by simp⟩
  · rintro ⟨s, t, hst⟩
    refine ⟨⟨s⟩, ⟨t⟩, ?_⟩
    apply String.eq_of_data_eq
    simp [← hst]

theorem isInfixAppendRight {α : Type} {l l₁ : List α} (h : l <:+: l₁)
    (l₂ : List α) : l <:+: l₁ ++ l₂ := by
  obtain ⟨s, t, rfl⟩ := h
  exact ⟨s, t ++ l₂, by simp⟩

/-- Exhaustive case analysis of the coercion phase of
`calculate_solar_economics`. -/
theorem calc_cases (a b c d : PyValue) :
    (∃ pv tg tdl sp, resolveTdl c = some tdl ∧ b.toFloat = some tg ∧
      d.toFloat = some sp ∧ a.toFloat = some pv ∧
      calculate_solar_economics a b c d = calculateQ pv tg tdl sp) ∨
    calculate_solar_economics a b c d = .error coercionErrMsg := by
  unfold calculate_solar_economics
  rcases h1 : resolveTdl c with _ | tdl
  · right; rfl
  · rcases h2 : b.toFloat with _ | tg
    · right; rfl
    · rcases h3 : d.toFloat with _ | sp
      · right; rfl
      · rcases h4 : a.toFloat with _ | pv
        · right; rfl
        · left; exact ⟨pv, tg, tdl, sp, rfl, rfl, rfl, rfl, rfl⟩

/-- Field-wise inversion of a successful `calculateQ` call. -/
theorem calculateQ_success_inv {pv mb tdl sp : ℚ} {r : EconSuccess}
    (h : calculateQ pv mb tdl sp = .success r) :
    pvout_monthly_effective pv ≠ 0 ∧
    r.TDL_Used = pyRound tdl 2 ∧
    r.Kapasitas_kWp = pyRound (kapasitas_kwp pv mb tdl sp) 2 ∧
    r.Produksi_kWh_Bulanan = pyRound (target_produksi_bulanan mb tdl sp) 4 ∧
    r.Total_Investasi = pyRound (total_investasi pv mb tdl sp) 0 ∧
    r.Penghematan_Tahunan_Rp = pyRound (penghematan_tahunan_uang mb tdl sp) 0 ∧
    r.BEP_Tahun = (if 0 < penghematan_tahunan_uang mb tdl sp then
        BepField.num (pyRound (total_investasi pv mb tdl sp /
          penghematan_tahunan_uang mb tdl sp) 1)
      else BepField.inf) ∧
    r.Jumlah_Panel = jumlah_panel (kapasitas_kwp pv mb tdl sp) ∧
    r.Estimasi_Area_m2 =
      pyRound ((jumlah_panel (kapasitas_kwp pv mb tdl sp) : ℚ) *
        PANEL_AREA_SQM) 2 := by
  by_cases hpm : pvout_monthly_effective pv = 0
  · unfold calculateQ at h
    rw [if_pos hpm] at h
    exact absurd h (by simp)
  · rw [calculateQ_success _ _ _ _ hpm] at h
    injection h with h'
    subst h'
    exact ⟨hpm, rfl, rfl, rfl, rfl, rfl, rfl, rfl, rfl⟩

/-! ## Claims -/

/-- C1: For every `pvout_annual > 0`, `monthly_bill > 0`, `tariff > 0` and
`savings_percent` in `(0, 100]`, `calculate_solar_economics` returns a
success result (the `"status": "success"` record with all twelve derived
fields) whose `Kapasitas_kWp` field is `≥ 0`. -/
theorem C1_success_nonneg_capacity (pv mb t sp : ℚ)
    (hpv : 0 < pv) (hmb : 0 < mb) (ht : 0 < t) (hsp : 0 < sp)
    (_hsp100 : sp ≤ 100) :
    ∃ r, calculate_solar_economics (pyNum pv) (pyNum mb) (pyNum t) (pyNum sp) =
      EconResult.success r ∧ 0 ≤ r.Kapasitas_kWp := by
  have htdl : effTdl t = t := if_pos ht
  have hpm : pvout_monthly_effective pv ≠ 0 :=
    pvout_monthly_effective_ne_zero (ne_of_gt hpv)
  have heq : calculate_solar_economics (pyNum pv) (pyNum mb) (pyNum t)
      (pyNum sp) = calculateQ pv mb t sp := by rw [calculate_num, htdl]
  rw [heq, calculateQ_success pv mb t sp hpm]
  refine ⟨_, rfl, ?_⟩
  · show 0 ≤ pyRound (kapasitas_kwp pv mb t sp) 2
    apply pyRound_nonneg
    unfold kapasitas_kwp
    apply div_nonneg
    · unfold target_produksi_bulanan kebutuhan_energi_bulanan
      rw [if_pos (ne_of_gt ht)]
      have h1 : 0 ≤ mb / t := le_of_lt (div_pos hmb ht)
      have h2 : (0 : ℚ) ≤ sp / 100 := by positivity
      exact mul_nonneg h1 h2
    · rw [pvout_monthly_effective_eq]
      positivity

/-- Witness for C1 at `pvout_annual = 1200`, `monthly_bill = 850000`,
`tariff = 1000`, `savings_percent = 100`. -/
theorem C1_witness :
    (0 : ℚ) < 1200 ∧ (0 : ℚ) < 850000 ∧ (0 : ℚ) < 1000 ∧ (0 : ℚ) < 100 ∧
    (100 : ℚ) ≤ 100 ∧
    ∃ r, calculate_solar_economics (pyNum 1200) (pyNum 850000) (pyNum 1000)
      (pyNum 100) = EconResult.success r ∧ 0 ≤ r.Kapasitas_kWp :=
  ⟨by norm_num, by norm_num, by norm_num, by norm_num, le_refl _,
    C1_success_nonneg_capacity 1200 850000 1000 100 (by norm_num)
      (by norm_num) (by norm_num) (by norm_num) (by norm_num)⟩

/-- C4: a tariff argument that is absent (`None`/empty, i.e. falsy) or `≤ 0`
resolves to the default tariff `1699.53`, which is what the `TDL_Used` field
of a success result reports; a strictly positive tariff is used as given. -/
theorem C4_default_tariff :
    (∀ q : ℚ, q ≤ 0 → resolveTdl (pyNum q) = some DEFAULT_TARIFF) ∧
    resolveTdl pyNone = some DEFAULT_TARIFF ∧
    (∀ q : ℚ, 0 < q → resolveTdl (pyNum q) = some q) ∧
    DEFAULT_TARIFF = 169953 / 100 ∧
    (∀ pv mb sp tq : ℚ, tq ≤ 0 → ∀ r,
      calculate_solar_economics (pyNum pv) (pyNum mb) (pyNum tq) (pyNum sp) =
        EconResult.success r → r.TDL_Used = DEFAULT_TARIFF) ∧
    (∀ pv mb sp : ℚ, ∀ r,
      calculate_solar_economics (pyNum pv) (pyNum mb) pyNone (pyNum sp) =
        EconResult.success r → r.TDL_Used = DEFAULT_TARIFF) := by
  have hneg : ∀ q : ℚ, q ≤ 0 → effTdl q = DEFAULT_TARIFF := by
    intro q hq
    unfold effTdl
    rw [if_neg (not_lt.mpr hq)]
  have hTDL : pyRound DEFAULT_TARIFF 2 = DEFAULT_TARIFF :=
    pyRound_eq_self 169953 (by norm_num [DEFAULT_TARIFF])
  refine ⟨?_, ?_, ?_, ?_, ?_, ?_⟩
  · intro q hq
    rw [resolveTdl_num, hneg q hq]
  · rfl
  · intro q hq
    rw [resolveTdl_num]
    unfold effTdl
    rw [if_pos hq]
  · rfl
  · intro pv mb sp tq htq r hr
    rw [calculate_num, hneg tq htq] at hr
    obtain ⟨-, hfield, -⟩ := calculateQ_success_inv hr
    rw [hfield, hTDL]
  · intro pv mb sp r hr
    have hnone : calculate_solar_economics (pyNum pv) (pyNum mb) pyNone
        (pyNum sp) = calculateQ pv mb DEFAULT_TARIFF sp := rfl
    rw [hnone] at hr
    obtain ⟨-, hfield, -⟩ := calculateQ_success_inv hr
    rw [hfield, hTDL]

/-- Witness for C4 at tariffs `-5`, `0`, `None` and `2`. -/
theorem C4_witness :
    ((-5 : ℚ) ≤ 0 ∧ resolveTdl (pyNum (-5)) = some DEFAULT_TARIFF) ∧
    ((0 : ℚ) ≤ 0 ∧ resolveTdl (pyNum 0) = some DEFAULT_TARIFF) ∧
    resolveTdl pyNone = some DEFAULT_TARIFF ∧
    ((0 : ℚ) < 2 ∧ resolveTdl (pyNum 2) = some 2) :=
  ⟨⟨by norm_num, C4_default_tariff.1 (-5) (by norm_num)⟩,
    ⟨le_refl _, C4_default_tariff.1 0 (le_refl _)⟩,
    C4_default_tariff.2.1,
    ⟨by norm_num, C4_default_tariff.2.2.1 2 (by norm_num)⟩⟩

/-- C9: whatever the tariff argument, a successfully resolved effective
tariff is strictly positive, so the `if tdl != 0` guard always takes the
division branch: the monthly energy need is `monthly_bill / effective_tariff`
for every bill. -/
theorem C9_effective_tariff_positive (tarif : PyValue) (tdl : ℚ)
    (h : resolveTdl tarif = some tdl) :
    0 < tdl ∧
    ∀ tagihan : ℚ, kebutuhan_energi_bulanan tagihan tdl = tagihan / tdl := by
  have hpos : 0 < tdl := by
    unfold resolveTdl at h
    by_cases ht : tarif.truthy
    · rw [if_pos ht] at h
      rcases hf : tarif.toFloat with _ | v
      · rw [hf] at h; cases h
      · rw [hf] at h
        injection h with h'
        subst h'
        by_cases hv : 0 < v
        · rwa [if_pos hv]
        · rw [if_neg hv]; exact DEFAULT_TARIFF_pos
    · rw [if_neg ht] at h
      injection h with h'
      subst h'
      exact DEFAULT_TARIFF_pos
  refine ⟨hpos, fun tagihan => ?_⟩
  unfold kebutuhan_energi_bulanan
  rw [if_pos (ne_of_gt hpos)]

/-- Witness for C9 at tariff `7`. -/
theorem C9_witness :
    resolveTdl (pyNum 7) = some 7 ∧
    (0 < (7 : ℚ) ∧
      ∀ tagihan : ℚ, kebutuhan_energi_bulanan tagihan 7 = tagihan / 7) := by
  have h : resolveTdl (pyNum 7) = some 7 := by
    rw [resolveTdl_num]
    norm_num [effTdl]
  exact ⟨h, C9_effective_tariff_positive (pyNum 7) 7 h⟩

/-- C6: with `pvout_annual = 0`, whatever the other three arguments are,
`calculate_solar_economics` returns an error result; when the other
arguments are numeric the error is precisely the zero-effective-yield
message, because `(0 / 12) * 0.85 = 0`. -/
theorem C6_zero_pvout_error :
    (∀ b c d : PyValue,
      ∃ m, calculate_solar_economics (pyNum 0) b c d = EconResult.error m) ∧
    (∀ bq cq dq : ℚ,
      calculate_solar_economics (pyNum 0) (pyNum bq) (pyNum cq) (pyNum dq) =
        EconResult.error zeroYieldMsg) := by
  have hpm0 : pvout_monthly_effective 0 = 0 := by
    rw [pvout_monthly_effective_eq]; ring
  constructor
  · intro b c d
    rcases calc_cases (pyNum 0) b c d with ⟨pv, tg, tdl, sp, _, _, _, h4, heq⟩ | herr
    · have hpv : pv = 0 := by
        have : (some (0 : ℚ) : Option ℚ) = some pv := h4
        injection this with h'
        exact h'.symm
      subst hpv
      refine ⟨zeroYieldMsg, ?_⟩
      rw [heq]
      unfold calculateQ
      rw [if_pos hpm0]
    · exact ⟨_, herr⟩
  · intro bq cq dq
    rw [calculate_num]
    unfold calculateQ
    rw [if_pos hpm0]

/-- C5: for every input — float-coercible or not — the calculator returns
either a success record or a tagged error whose message is descriptive
(the computation-error prefix or the zero-yield message); it never produces
anything else (no uncaught fault, no partial record). -/
theorem C5_total_no_fault (a b c d : PyValue) :
    (∃ r, calculate_solar_economics a b c d = EconResult.success r) ∨
    (∃ m, calculate_solar_economics a b c d = EconResult.error m ∧
      (containsSub "Kesalahan perhitungan finansial" m ∨ m = zeroYieldMsg)) := by
  rcases calc_cases a b c d with ⟨pv, tg, tdl, sp, _, _, _, _, heq⟩ | herr
  · by_cases hpm : pvout_monthly_effective pv = 0
    · right
      refine ⟨zeroYieldMsg, ?_, Or.inr rfl⟩
      rw [heq]
      unfold calculateQ
      rw [if_pos hpm]
    · left
      exact ⟨_, by rw [heq]; exact calculateQ_success _ _ _ _ hpm⟩
  · right
    refine ⟨coercionErrMsg, herr, Or.inl ?_⟩
    rw [containsSub_iff_listInfix]
    decide

/-- C7 counterexample: a transport-complete response with (non-2xx) status
304 and a body lacking `outputs.totals.fixed.E_y` does not yield a
"request error" failure — `raise_for_status()` only raises on 4xx/5xx, so
the code proceeds to the extraction and reports the "missing" error. -/
theorem C7_counterexample :
    get_pvout_annual (HttpOutcome.resp 304 Json.null) =
      PvoutResult.error "PVGIS response missing E_y value." ∧
    ¬ containsSub "request error" "PVGIS response missing E_y value." := by
  constructor
  · rfl
  · rw [containsSub_iff_listInfix]
    decide

/-- C7 (amended): every raised `RequestException` (timeout, unreachable
host, ...) and every 4xx/5xx status yields a Failure whose message contains
"request error"; every response that survives `raise_for_status` but whose
body lacks `outputs.totals.fixed.E_y` yields a Failure whose message
contains "missing"; no branch escapes as an uncaught fault. -/
theorem C7_amended_lookup_errors :
    (∀ e : String,
      ∃ m, get_pvout_annual (HttpOutcome.exn e) = PvoutResult.error m ∧
        containsSub "request error" m) ∧
    (∀ (s : ℕ) (body : Json), 400 ≤ s →
      ∃ m, get_pvout_annual (HttpOutcome.resp s body) = PvoutResult.error m ∧
        containsSub "request error" m) ∧
    (∀ (s : ℕ) (body : Json), s < 400 → lookup_E_y body = none →
      ∃ m, get_pvout_annual (HttpOutcome.resp s body) = PvoutResult.error m ∧
        containsSub "missing" m) := by
  refine ⟨?_, ?_, ?_⟩
  · intro e
    refine ⟨"PVGIS request error: " ++ e, rfl, ?_⟩
    rw [containsSub_iff_listInfix]
    have hd : ("PVGIS request error: " ++ e).data =
        "PVGIS request error: ".data ++ e.data := by simp
    rw [hd]
    exact isInfixAppendRight (by decide) e.data
  · intro s body hs
    refine ⟨"PVGIS request error: HTTP " ++ toString s, ?_, ?_⟩
    · simp only [get_pvout_annual]
      rw [if_pos hs]
    · rw [containsSub_iff_listInfix]
      have hd : ("PVGIS request error: HTTP " ++ toString s).data =
          "PVGIS request error: HTTP ".data ++ (toString s).data := by simp
      rw [hd]
      exact isInfixAppendRight (by decide) (toString s).data
  · intro s body hs hlook
    refine ⟨"PVGIS response missing E_y value.", ?_, ?_⟩
    · simp only [get_pvout_annual]
      rw [if_neg (by omega : ¬ 400 ≤ s), hlook]
    · rw [containsSub_iff_listInfix]
      decide

/-- Witness for the amended C7: an exception, a 500 status and a 200
status with an empty JSON object. -/
theorem C7_witness :
    (∃ m, get_pvout_annual (HttpOutcome.exn "connection refused") =
        PvoutResult.error m ∧ containsSub "request error" m) ∧
    (400 ≤ 500 ∧
      ∃ m, get_pvout_annual (HttpOutcome.resp 500 (Json.obj [])) =
        PvoutResult.error m ∧ containsSub "request error" m) ∧
    (200 < 400 ∧ lookup_E_y (Json.obj []) = none ∧
      ∃ m, get_pvout_annual (HttpOutcome.resp 200 (Json.obj [])) =
        PvoutResult.error m ∧ containsSub "missing" m) :=
  ⟨C7_amended_lookup_errors.1 "connection refused",
    ⟨by norm_num, C7_amended_lookup_errors.2.1 500 (Json.obj []) (by norm_num)⟩,
    ⟨by norm_num, rfl,
      C7_amended_lookup_errors.2.2 200 (Json.obj []) (by norm_num) rfl⟩⟩

/-- C2 counterexample: at `pvout_annual = 1200`, `monthly_bill = 0.03`,
`tariff = 1000`, `savings_percent = 100`, the rounded output field
`Produksi_kWh_Bulanan` is `0` (so `Produksi_kWh_Bulanan * 12 * tariff ≤ 0`),
yet `BEP_Tahun` is numeric, not the "Inf" sentinel: the code decides the
sentinel on the unrounded annual savings, not on the rounded fields. -/
theorem C2_counterexample :
    ∃ r, calculate_solar_economics (pyNum 1200) (pyNum (3 / 100)) (pyNum 1000)
      (pyNum 100) = EconResult.success r ∧
      r.Produksi_kWh_Bulanan * 12 * 1000 ≤ 0 ∧
      r.BEP_Tahun ≠ BepField.inf := by
  have htdl : effTdl 1000 = 1000 := by norm_num [effTdl]
  have hpm : pvout_monthly_effective 1200 ≠ 0 := by
    rw [pvout_monthly_effective_eq]; norm_num
  have heq : calculate_solar_economics (pyNum 1200) (pyNum (3 / 100))
      (pyNum 1000) (pyNum 100) = calculateQ 1200 (3 / 100) 1000 100 := by
    rw [calculate_num, htdl]
  rw [heq, calculateQ_success 1200 (3 / 100) 1000 100 hpm]
  refine ⟨_, rfl, ?_, ?_⟩
  · show pyRound (target_produksi_bulanan (3 / 100) 1000 100) 4 * 12 * 1000 ≤ 0
    have ht : target_produksi_bulanan (3 / 100) 1000 100 = 3 / 100000 := by
      norm_num [target_produksi_bulanan, kebutuhan_energi_bulanan]
    have hr : pyRound (3 / 100000 : ℚ) 4 = 0 := by
      unfold pyRound
      rw [(by norm_num : (3 / 100000 : ℚ) * 10 ^ 4 = 3 / 10),
        roundHalfEven_eq_of_lt (f := 0) (by norm_num) (by norm_num)]
      norm_num
    rw [ht, hr]
    norm_num
  · show (if 0 < penghematan_tahunan_uang (3 / 100) 1000 100 then
        BepField.num (pyRound (total_investasi 1200 (3 / 100) 1000 100 /
          penghematan_tahunan_uang (3 / 100) 1000 100) 1)
      else BepField.inf) ≠ BepField.inf
    rw [if_pos (by norm_num [penghematan_tahunan_uang,
      target_produksi_bulanan, kebutuhan_energi_bulanan] :
      (0 : ℚ) < penghematan_tahunan_uang (3 / 100) 1000 100)]
    simp

/-- C2 (amended): the sentinel decision and the break-even ratio are taken
on the unrounded quantities: in every success result, if the unrounded
annual savings `target_produksi_bulanan * 12 * tdl` is `≤ 0` then
`BEP_Tahun` is the "Inf" sentinel, and otherwise `BEP_Tahun` is
`round(total_investasi / penghematan_tahunan_uang, 1)` computed from the
unrounded total investment and annual savings. -/
theorem C2_amended_bep (pv mb t sp : ℚ) (r : EconSuccess)
    (h : calculate_solar_economics (pyNum pv) (pyNum mb) (pyNum t)
      (pyNum sp) = EconResult.success r) :
    (penghematan_tahunan_uang mb (effTdl t) sp ≤ 0 →
      r.BEP_Tahun = BepField.inf) ∧
    (0 < penghematan_tahunan_uang mb (effTdl t) sp →
      r.BEP_Tahun = BepField.num (pyRound
        (total_investasi pv mb (effTdl t) sp /
          penghematan_tahunan_uang mb (effTdl t) sp) 1)) := by
  rw [calculate_num] at h
  obtain ⟨-, -, -, -, -, -, hbep, -, -⟩ := calculateQ_success_inv h
  constructor
  · intro hle
    rw [hbep, if_neg (not_lt.mpr hle)]
  · intro hlt
    rw [hbep, if_pos hlt]

/-- A concrete successful call shared by several witnesses. -/
theorem calc_success_1200 :
    ∃ r, calculate_solar_economics (pyNum 1200) (pyNum 850000) (pyNum 1000)
      (pyNum 100) = EconResult.success r := by
  have heq : calculate_solar_economics (pyNum 1200) (pyNum 850000)
      (pyNum 1000) (pyNum 100) = calculateQ 1200 850000 1000 100 := by
    rw [calculate_num, (by norm_num [effTdl] : effTdl (1000 : ℚ) = 1000)]
  rw [heq, calculateQ_success 1200 850000 1000 100
    (by rw [pvout_monthly_effective_eq]; norm_num)]
  exact ⟨_, rfl⟩

/-- Witness for the amended C2 at a positive-savings input. -/
theorem C2_witness :
    ∃ r, calculate_solar_economics (pyNum 1200) (pyNum 850000) (pyNum 1000)
      (pyNum 100) = EconResult.success r ∧
      r.BEP_Tahun = BepField.num (pyRound
        (total_investasi 1200 850000 (effTdl 1000) 100 /
          penghematan_tahunan_uang 850000 (effTdl 1000) 100) 1) := by
  obtain ⟨r, hr⟩ := calc_success_1200
  refine ⟨r, hr, (C2_amended_bep 1200 850000 1000 100 r hr).2 ?_⟩
  norm_num [penghematan_tahunan_uang, target_produksi_bulanan,
    kebutuhan_energi_bulanan, effTdl]

/-- C3 counterexample: at `pvout_annual = 1200`, `monthly_bill = 85`,
`tariff = 1000`, `savings_percent = 100` the unrounded capacity is `0.001`,
so the rounded field `Kapasitas_kWp` is `0` while `Jumlah_Panel` is `1`:
the panel count is not `ceil(Kapasitas_kWp * 1000 / 650)` over the rounded
field, and it is not `0` although `Kapasitas_kWp ≤ 0` holds for the field. -/
theorem C3_counterexample :
    ∃ r, calculate_solar_economics (pyNum 1200) (pyNum 85) (pyNum 1000)
      (pyNum 100) = EconResult.success r ∧
      r.Kapasitas_kWp = 0 ∧ r.Jumlah_Panel = 1 ∧
      r.Jumlah_Panel ≠ ⌈r.Kapasitas_kWp * 1000 / 650⌉ := by
  have hpm : pvout_monthly_effective 1200 ≠ 0 := by
    rw [pvout_monthly_effective_eq]; norm_num
  have heq : calculate_solar_economics (pyNum 1200) (pyNum 85) (pyNum 1000)
      (pyNum 100) = calculateQ 1200 85 1000 100 := by
    rw [calculate_num, (by norm_num [effTdl] : effTdl (1000 : ℚ) = 1000)]
  have hkap : kapasitas_kwp 1200 85 1000 100 = 1 / 1000 := by
    norm_num [kapasitas_kwp, target_produksi_bulanan,
      kebutuhan_energi_bulanan, pvout_monthly_effective, LOSS_FACTOR]
  have hkapf : pyRound (kapasitas_kwp 1200 85 1000 100) 2 = 0 := by
    rw [hkap]
    unfold pyRound
    rw [(by norm_num : (1 / 1000 : ℚ) * 10 ^ 2 = 1 / 10),
      roundHalfEven_eq_of_lt (f := 0) (by norm_num) (by norm_num)]
    norm_num
  have hjp : jumlah_panel (kapasitas_kwp 1200 85 1000 100) = 1 := by
    rw [hkap]
    unfold jumlah_panel
    rw [if_pos (by norm_num : (0 : ℚ) < 1 / 1000),
      (by norm_num [PANEL_WATT_PEAK] :
        (1 / 1000 : ℚ) * 1000 / PANEL_WATT_PEAK = 1 / 650),
      Int.ceil_eq_iff]
    norm_num
  rw [heq, calculateQ_success 1200 85 1000 100 hpm]
  refine ⟨_, rfl, hkapf, hjp, ?_⟩
  rw [hjp, hkapf, (by norm_num : (0 : ℚ) * 1000 / 650 = 0), Int.ceil_zero]
  norm_num

/-- C3 (amended): `Jumlah_Panel` is computed from the unrounded capacity
`kapasitas_kwp`, before the 2-decimal rounding that produces the
`Kapasitas_kWp` field: it is `ceil(kapasitas_kwp * 1000 / 650)` when the
unrounded capacity is strictly positive and `0` when it is `≤ 0`. -/
theorem C3_amended_panels (pv mb t sp : ℚ) (r : EconSuccess)
    (h : calculate_solar_economics (pyNum pv) (pyNum mb) (pyNum t)
      (pyNum sp) = EconResult.success r) :
    r.Jumlah_Panel = jumlah_panel (kapasitas_kwp pv mb (effTdl t) sp) ∧
    (0 < kapasitas_kwp pv mb (effTdl t) sp →
      r.Jumlah_Panel =
        ⌈kapasitas_kwp pv mb (effTdl t) sp * 1000 / PANEL_WATT_PEAK⌉) ∧
    (kapasitas_kwp pv mb (effTdl t) sp ≤ 0 → r.Jumlah_Panel = 0) := by
  rw [calculate_num] at h
  obtain ⟨-, -, -, -, -, -, -, hjp, -⟩ := calculateQ_success_inv h
  refine ⟨hjp, ?_, ?_⟩
  · intro hpos
    rw [hjp]
    unfold jumlah_panel
    rw [if_pos hpos]
  · intro hle
    rw [hjp]
    unfold jumlah_panel
    rw [if_neg (not_lt.mpr hle)]

/-- Witness for the amended C3. -/
theorem C3_witness :
    ∃ r, calculate_solar_economics (pyNum 1200) (pyNum 850000) (pyNum 1000)
      (pyNum 100) = EconResult.success r ∧
      r.Jumlah_Panel = jumlah_panel (kapasitas_kwp 1200 850000
        (effTdl 1000) 100) := by
  obtain ⟨r, hr⟩ := calc_success_1200
  exact ⟨r, hr, (C3_amended_panels 1200 850000 1000 100 r hr).1⟩

/-- C8: in every success result, the `Estimasi_Area_m2` field equals
`Jumlah_Panel * 2.71` exactly — the 2-decimal rounding of the area is the
identity because the product of an integer and `2.71` already has at most
two decimals. -/
theorem C8_area_exact (pv mb t sp : ℚ) (r : EconSuccess)
    (h : calculate_solar_economics (pyNum pv) (pyNum mb) (pyNum t)
      (pyNum sp) = EconResult.success r) :
    r.Estimasi_Area_m2 = (r.Jumlah_Panel : ℚ) * PANEL_AREA_SQM := by
  rw [calculate_num] at h
  obtain ⟨-, -, -, -, -, -, -, hjp, harea⟩ := calculateQ_success_inv h
  rw [harea, hjp]
  apply pyRound_eq_self (jumlah_panel (kapasitas_kwp pv mb (effTdl t) sp) * 271)
  push_cast
  unfold PANEL_AREA_SQM
  ring

/-- Witness for C8. -/
theorem C8_witness :
    ∃ r, calculate_solar_economics (pyNum 1200) (pyNum 850000) (pyNum 1000)
      (pyNum 100) = EconResult.success r ∧
      r.Estimasi_Area_m2 = (r.Jumlah_Panel : ℚ) * PANEL_AREA_SQM := by
  obtain ⟨r, hr⟩ := calc_success_1200
  exact ⟨r, hr, C8_area_exact 1200 850000 1000 100 r hr⟩

/-- C10 counterexample: for the strictly negative `pvout_annual = -10^12`
with positive bill, tariff and full savings percentage, the call does
succeed, but the rounded `Kapasitas_kWp` field is `0` — not strictly
negative — and `BEP_Tahun` rounds to `0.0`, which is not negative either. -/
theorem C10_counterexample :
    ∃ r, calculate_solar_economics (pyNum (-(10 ^ 12))) (pyNum 1000)
      (pyNum 1000) (pyNum 100) = EconResult.success r ∧
      ¬ r.Kapasitas_kWp < 0 ∧ r.BEP_Tahun = BepField.num 0 := by
  have hpm : pvout_monthly_effective (-(10 ^ 12)) ≠ 0 := by
    rw [pvout_monthly_effective_eq]; norm_num
  have heq : calculate_solar_economics (pyNum (-(10 ^ 12))) (pyNum 1000)
      (pyNum 1000) (pyNum 100) = calculateQ (-(10 ^ 12)) 1000 1000 100 := by
    rw [calculate_num, (by norm_num [effTdl] : effTdl (1000 : ℚ) = 1000)]
  have hkap : kapasitas_kwp (-(10 ^ 12)) 1000 1000 100 =
      -3 / 212500000000 := by
    norm_num [kapasitas_kwp, target_produksi_bulanan,
      kebutuhan_energi_bulanan, pvout_monthly_effective, LOSS_FACTOR]
  have hkapf : pyRound (kapasitas_kwp (-(10 ^ 12)) 1000 1000 100) 2 = 0 := by
    rw [hkap]
    unfold pyRound
    rw [(by norm_num : (-3 / 212500000000 : ℚ) * 10 ^ 2 = -3 / 2125000000),
      roundHalfEven_eq_of_gt (f := -1) (by norm_num) (by norm_num)]
    norm_num
  have hpt : (0 : ℚ) < penghematan_tahunan_uang 1000 1000 100 := by
    norm_num [penghematan_tahunan_uang, target_produksi_bulanan,
      kebutuhan_energi_bulanan]
  have hbep : pyRound (total_investasi (-(10 ^ 12)) 1000 1000 100 /
      penghematan_tahunan_uang 1000 1000 100) 1 = 0 := by
    rw [(by norm_num [total_investasi, kapasitas_kwp,
        target_produksi_bulanan, kebutuhan_energi_bulanan,
        pvout_monthly_effective, LOSS_FACTOR, COST_PER_KWP,
        penghematan_tahunan_uang] :
      total_investasi (-(10 ^ 12)) 1000 1000 100 /
        penghematan_tahunan_uang 1000 1000 100 = -1239 / 85000000000)]
    unfold pyRound
    rw [(by norm_num : (-1239 / 85000000000 : ℚ) * 10 ^ 1 = -1239 / 8500000000),
      roundHalfEven_eq_of_gt (f := -1) (by norm_num) (by norm_num)]
    norm_num
  rw [heq, calculateQ_success (-(10 ^ 12)) 1000 1000 100 hpm]
  refine ⟨_, rfl, ?_, ?_⟩
  · show ¬ pyRound (kapasitas_kwp (-(10 ^ 12)) 1000 1000 100) 2 < 0
    rw [hkapf]
    norm_num
  · show (if 0 < penghematan_tahunan_uang 1000 1000 100 then
        BepField.num (pyRound (total_investasi (-(10 ^ 12)) 1000 1000 100 /
          penghematan_tahunan_uang 1000 1000 100) 1)
      else BepField.inf) = BepField.num 0
    rw [if_pos hpt, hbep]

/-- C10 (amended): for every strictly negative `pvout_annual` with positive
`monthly_bill`, positive `tariff` and `savings_percent` in `(0,100]`, the
call does not error: it succeeds, the unrounded capacity `kapasitas_kwp`
is strictly negative, the rounded `Kapasitas_kWp` field is `≤ 0`,
`Jumlah_Panel` is `0`, and `BEP_Tahun` is a numeric value `≤ 0` (and hence
not the "Inf" sentinel). -/
theorem C10_amended_negative_pvout (pv mb t sp : ℚ) (hpv : pv < 0)
    (hmb : 0 < mb) (ht : 0 < t) (hsp : 0 < sp) (_hsp100 : sp ≤ 100) :
    ∃ r, calculate_solar_economics (pyNum pv) (pyNum mb) (pyNum t)
      (pyNum sp) = EconResult.success r ∧
      kapasitas_kwp pv mb t sp < 0 ∧
      r.Kapasitas_kWp ≤ 0 ∧
      r.Jumlah_Panel = 0 ∧
      ∃ q, r.BEP_Tahun = BepField.num q ∧ q ≤ 0 := by
  have htdl : effTdl t = t := if_pos ht
  have hpm : pvout_monthly_effective pv ≠ 0 :=
    pvout_monthly_effective_ne_zero (ne_of_lt hpv)
  have hpmneg : pvout_monthly_effective pv < 0 := by
    rw [pvout_monthly_effective_eq]
    exact mul_neg_of_neg_of_pos hpv (by norm_num)
  have htarget : 0 < target_produksi_bulanan mb t sp := by
    unfold target_produksi_bulanan kebutuhan_energi_bulanan
    rw [if_pos (ne_of_gt ht)]
    exact mul_pos (div_pos hmb ht) (by positivity)
  have hkap : kapasitas_kwp pv mb t sp < 0 :=
    div_neg_of_pos_of_neg htarget hpmneg
  have hti : total_investasi pv mb t sp < 0 := by
    unfold total_investasi
    exact mul_neg_of_neg_of_pos hkap (by norm_num [COST_PER_KWP])
  have hpt : 0 < penghematan_tahunan_uang mb t sp := by
    unfold penghematan_tahunan_uang
    exact mul_pos (mul_pos htarget (by norm_num)) ht
  have heq : calculate_solar_economics (pyNum pv) (pyNum mb) (pyNum t)
      (pyNum sp) = calculateQ pv mb t sp := by rw [calculate_num, htdl]
  rw [heq, calculateQ_success pv mb t sp hpm]
  refine ⟨_, rfl, hkap, ?_, ?_, ?_⟩
  · show pyRound (kapasitas_kwp pv mb t sp) 2 ≤ 0
    exact pyRound_nonpos 2 (le_of_lt hkap)
  · show jumlah_panel (kapasitas_kwp pv mb t sp) = 0
    unfold jumlah_panel
    rw [if_neg (not_lt.mpr (le_of_lt hkap))]
  · show ∃ q, (if 0 < penghematan_tahunan_uang mb t sp then
        BepField.num (pyRound (total_investasi pv mb t sp /
          penghematan_tahunan_uang mb t sp) 1)
      else BepField.inf) = BepField.num q ∧ q ≤ 0
    refine ⟨pyRound (total_investasi pv mb t sp /
      penghematan_tahunan_uang mb t sp) 1, by rw [if_pos hpt], ?_⟩
    exact pyRound_nonpos 1 (le_of_lt (div_neg_of_neg_of_pos hti hpt))

/-- Witness for the amended C10 at `pvout_annual = -1200`. -/
theorem C10_witness :
    (-1200 : ℚ) < 0 ∧ (0 : ℚ) < 1000 ∧ (0 : ℚ) < 1000 ∧ (0 : ℚ) < 100 ∧
    (100 : ℚ) ≤ 100 ∧
    ∃ r, calculate_solar_economics (pyNum (-1200)) (pyNum 1000) (pyNum 1000)
      (pyNum 100) = EconResult.success r ∧
      kapasitas_kwp (-1200) 1000 1000 100 < 0 ∧
      r.Kapasitas_kWp ≤ 0 ∧
      r.Jumlah_Panel = 0 ∧
      ∃ q, r.BEP_Tahun = BepField.num q ∧ q ≤ 0 :=
  ⟨by norm_num, by norm_num, by norm_num, by norm_num, le_refl _,
    C10_amended_negative_pvout (-1200) 1000 1000 100 (by norm_num)
      (by norm_num) (by norm_num) (by norm_num) (by norm_num)⟩
